import Mathlib

/-!
Verification of the tiered authorization-gating layer of the Nubila
protected MCP server.

The definitions below are a shallow embedding of the gating code in
`protected-server.js` (the main server), the near-duplicate bootstrap in
`src/unnamed/part_002`, and the variant lookup in `src/unnamed/part_000`.
JavaScript objects that flow through the gate are modelled as association
lists of string keys; `JSON.parse` / `JSON.stringify` at the envelope
boundary are modelled by an explicit `Text` type that records whether a
string is the serialization of a structured value.  The external Radius
Entitlement Checker (`radius.protect`, a third-party package not in this
repository) is modelled from the spec's interface: it either re-delivers
the call to the inner callback, returns a response of its own without
invoking the callback, or throws.
-/

namespace NubilaGate

/-- JSON-like values, modelling the JavaScript values that appear in
argument bags, parsed proofs, and parsed envelope texts. -/
inductive JVal where
  | null : JVal
  | bool : Bool → JVal
  | num : Int → JVal
  | str : String → JVal
  | arr : List JVal → JVal
  | obj : List (String × JVal) → JVal

/-- JavaScript truthiness of a `JVal`, used by the gate's checks
`if (parsed.error)`, `if (args.__evmauth)` and `response.error`. -/
def truthy : JVal → Bool
  | .null => false
  | .bool b => b
  | .num n => n != 0
  | .str s => s != ""
  | .arr _ => true
  | .obj _ => true

/-- Generic association-list lookup, modelling JavaScript property
access on an object (yielding `undefined`, here `none`, when the key is
absent; JavaScript object keys are unique, so first-match agrees with
property access). -/
def lookupKey : List (String × α) → String → Option α
  | [], _ => none
  | p :: t, k => if p.1 = k then some p.2 else lookupKey t k

/-- Property access `v.k` on a parsed JSON value: a field of an object,
absent (`undefined`, falsy) on anything else. -/
def getField : JVal → String → Option JVal
  | .obj fs, k => lookupKey fs k
  | _, _ => none

/-- An argument bag: the JavaScript object of tool-call arguments. -/
abbrev Args := List (String × JVal)

/-- The reserved proof key used to transport the authorization proof. -/
def evmauthKey : String := "__evmauth"

/-- Removal of a key from an object, modelling the shallow copy of the
argument bag followed by `delete c.__evmauth`. -/
def eraseKey : List (String × α) → String → List (String × α)
  | [], _ => []
  | p :: t, k => if p.1 = k then eraseKey t k else p :: eraseKey t k

/-- A string at the envelope boundary.  `json v` is the serialization of
the structured value `v` (so `JSON.parse` recovers `v`); `raw s` is a
plain string that is not valid JSON (so `JSON.parse` throws). -/
inductive Text where
  | raw : String → Text
  | json : JVal → Text

/-- The outcome of `JSON.parse` on an envelope text. -/
def parseText : Text → Option JVal
  | .raw _ => none
  | .json v => some v

/-- The wrapping `typeof result === 'string' ? result :
JSON.stringify(result, null, 2)` used on the demo and free paths. -/
def resultText : JVal → Text
  | .str s => .raw s
  | v => .json v

/-- One item of an envelope's `content` array: an object with a `type`
tag and a `text` field. -/
structure Content where
  ctype : String
  text : Text

/-- A response value as inspected by the gate's response handling: an
envelope (object with a `content` array), an object with a truthy
top-level `error` field (carrying an optional `message` string), or any
other value. -/
inductive Resp where
  | envelope : List Content → Resp
  | errObj : Option String → Resp
  | value : JVal → Resp

/-- The `params` object of an MCP request, whose `arguments` field may be
absent when the Entitlement Checker re-delivers the call. -/
structure ToolParams where
  name : String
  arguments : Option Args

/-- The MCP request structure handed to the Entitlement Checker:
`method: 'tools/call', params: name and the original arguments`.
`params` is optional because the Checker's re-delivered view may omit it. -/
structure McpRequest where
  method : String
  params : Option ToolParams

/-- Modelled from the spec: the external Entitlement Checker
(`radius.protect` of the Radius MCP SDK, not part of this repository).
Per call it either re-delivers some request to the inner callback and
returns the callback's result (`allow`), returns a response of its own
without invoking the callback (`deny`), or throws (`throwErr`). -/
inductive CheckerBehavior where
  | allow : McpRequest → CheckerBehavior
  | deny : Resp → CheckerBehavior
  | throwErr : String → CheckerBehavior

/-- The observable result of one call through a registered tool's
`execute` wrapper: the returned response or thrown failure, the argument
bags delivered to the tool's handler, the `(tokenId, mcpRequest)` pairs
delivered to the Entitlement Checker, and the diagnostic outcome of the
proof-parse logging step (`none` when no truthy proof was present,
otherwise whether the parse succeeded). -/
structure GateResult where
  outcome : Except Text Resp
  handlerCalls : List Args
  checkerCalls : List (Option Nat × McpRequest)
  parseLog : Option Bool

/-- The body of the inner try in the response handling of
`protected-server.js` (and identically `part_002`): parse the first
content item's text (`JSON.parse` throws on invalid JSON), and if the
parsed value has a truthy `error` field, `throw new Error(firstContent.text)`;
otherwise `return response`. -/
def inspectEnvelopeText (t : Text) (resp : Resp) : Except Text Resp :=
  match parseText t with
  | none => .error (.raw "SyntaxError: Unexpected token in JSON")
  | some parsed =>
      match getField parsed "error" with
      | some e => if truthy e then .error t else .ok resp
      | none => .ok resp

/-- The response handling of `protected-server.js` lines 138–167 and
`part_002` lines 117–146 (the code is identical in the two files).  Note
the try/catch surrounding `inspectEnvelopeText`, whose catch body is
`return response`: the catch intercepts not only `JSON.parse`
failures but also the deliberate `throw new Error(firstContent.text)`,
so an envelope is always returned unchanged.  A top-level truthy `error`
field (outside a `content` array) does throw, with
`error.message or 'Authentication failed'`. -/
def handleResponse (resp : Resp) : Except Text Resp :=
  match resp with
  | .envelope contents =>
      match contents.head? with
      | some c =>
          .ok (match inspectEnvelopeText c.text resp with
               | .ok r => r
               | .error _ => resp)
      | none => .ok resp
  | .errObj msg => .error (.raw (msg.getD "Authentication failed"))
  | .value _ => .ok resp

/-- The inner callback passed to `radius.protect` in
`protected-server.js`: default the re-delivered arguments
(`request.params?.arguments || @[@]`), strip the proof key, invoke the
original handler, and wrap the result with an unconditional
`JSON.stringify(result)`.  Returns the response together with the
argument bags delivered to the handler. -/
def innerCallbackMain (handler : Args → JVal) (request : McpRequest) :
    Resp × List Args :=
  let toolArgs := (request.params.bind ToolParams.arguments).getD []
  let cleanArgs := eraseKey toolArgs evmauthKey
  let result := handler cleanArgs
  (.envelope [⟨"text", .json result⟩], [cleanArgs])

/-- The inner callback passed to `radius.protect` in `part_002`:
identical except that the wrapping passes a string result through
(`typeof result === 'string' ? result : JSON.stringify(result, null, 2)`). -/
def innerCallback002 (handler : Args → JVal) (request : McpRequest) :
    Resp × List Args :=
  let toolArgs := (request.params.bind ToolParams.arguments).getD []
  let cleanArgs := eraseKey toolArgs evmauthKey
  let result := handler cleanArgs
  (.envelope [⟨"text", resultText result⟩], [cleanArgs])

/-- The diagnostic proof-parse step guarded by `if (args.__evmauth)`:
attempted only when the proof key is present and truthy;
a string proof is run through `JSON.parse` (here the abstract
`jsonParse`), a non-string proof is used as-is and cannot fail.  The
step only logs; its value is recorded for the `parseLog` field. -/
def proofParseLog (jsonParse : String → Option JVal) (args : Args) :
    Option Bool :=
  match lookupKey args evmauthKey with
  | some v =>
      if truthy v then
        some (match v with
              | .str s => (jsonParse s).isSome
              | _ => true)
      else none
  | none => none

/-- The `execute` wrapper built in `protected-server.js` for a tool whose
`tokenId` is not `0` (`tokenId : Option Nat`, since an operation absent
from `TOKEN_REQUIREMENTS` yields `undefined`).  `demoMode` is the
`DEMO_MODE` value captured when the wrapper was constructed. -/
def executeProt (demoMode : Bool) (toolName : String) (tokenId : Option Nat)
    (handler : Args → JVal) (beh : CheckerBehavior)
    (jsonParse : String → Option JVal) (args : Args) : GateResult :=
  if demoMode then
    let cleanArgs := eraseKey args evmauthKey
    let result := handler cleanArgs
    ⟨.ok (.envelope [⟨"text", resultText result⟩]), [cleanArgs], [], none⟩
  else
    let plog := proofParseLog jsonParse args
    let mcpRequest : McpRequest := ⟨"tools/call", some ⟨toolName, some args⟩⟩
    match beh with
    | .allow redelivered =>
        let pr := innerCallbackMain handler redelivered
        ⟨handleResponse pr.1, pr.2, [(tokenId, mcpRequest)], plog⟩
    | .deny resp =>
        ⟨handleResponse resp, [], [(tokenId, mcpRequest)], plog⟩
    | .throwErr msg =>
        ⟨.error (.raw msg), [], [(tokenId, mcpRequest)], plog⟩

/-- The `execute` wrapper built in `protected-server.js` for a tool with
`tokenId === 0`: invoke the handler directly with the original arguments
and wrap the result; the Entitlement Checker and `DEMO_MODE` are never
consulted. -/
def executeFree (handler : Args → JVal) (args : Args) : GateResult :=
  let result := handler args
  ⟨.ok (.envelope [⟨"text", resultText result⟩]), [args], [], none⟩

/-- The tier registry of `tools/nubila-tools.js` (`part_001`). -/
def TOKEN_REQUIREMENTS : List (String × Nat) :=
  [("ping", 0), ("getCurrentWeather", 1), ("getForecast", 3),
   ("getDetailedWeatherAnalysis", 5)]

/-- Registration-time wiring of `protected-server.js`:
`const tokenId = TOKEN_REQUIREMENTS[toolName]` (no default), then
`if (tokenId === 0)` selects the free wrapper, anything else — including
`undefined` for an unregistered name — selects the protected wrapper. -/
def runMain (reqs : List (String × Nat)) (demoAtReg : Bool) (toolName : String)
    (handler : Args → JVal) (beh : CheckerBehavior)
    (jsonParse : String → Option JVal) (args : Args) : GateResult :=
  match lookupKey reqs toolName with
  | some 0 => executeFree handler args
  | t => executeProt demoAtReg toolName t handler beh jsonParse args

/-- Which wrapper a tool name is wired to at registration time. -/
inductive Branch where
  | free : Branch
  | protected_ : Option Nat → Branch
deriving DecidableEq

/-- The branch taken by `protected-server.js` for a tool name:
free exactly when the lookup yields `0`. -/
def branchMain (reqs : List (String × Nat)) (toolName : String) : Branch :=
  match lookupKey reqs toolName with
  | some 0 => .free
  | t => .protected_ t

/-- The token id computed by `part_000`:
`TOKEN_REQUIREMENTS[toolName] || 0`, defaulting an absent entry to `0`. -/
def tokenIdPart000 (reqs : List (String × Nat)) (toolName : String) : Nat :=
  (lookupKey reqs toolName).getD 0

/-- The branch taken by `part_000`: free exactly when `tokenIdPart000`
is `0` (so an unregistered operation is treated as free). -/
def branchPart000 (reqs : List (String × Nat)) (toolName : String) : Branch :=
  if tokenIdPart000 reqs toolName = 0 then .free
  else .protected_ (some (tokenIdPart000 reqs toolName))

/-- Reading the demonstration-mode flag from the process environment:
`process.env.DEMO_MODE === 'true'`. -/
def readDemoFlag (env : String → Option String) : Bool :=
  env "DEMO_MODE" == some "true"

/-- A call through the main server, distinguishing the environment at
registration time from the environment at call time.  The wrapper
closures of `protected-server.js` read `DEMO_MODE` when they are
constructed (inside the registration loop) and capture the value; no
code in the call path reads the environment again, so the call-time
environment does not appear in the result. -/
def runMainAtCall (envAtRegistration envAtCall : String → Option String)
    (reqs : List (String × Nat)) (toolName : String) (handler : Args → JVal)
    (beh : CheckerBehavior) (jsonParse : String → Option JVal)
    (args : Args) : GateResult :=
  runMain reqs (readDemoFlag envAtRegistration) toolName handler beh
    jsonParse args

/-- The `authenticatedHandler` wrapper of `part_002`, one function for
all tiers: the `DEMO_MODE` check comes first and calls the handler with
the original arguments (no stripping), then the `tokenId === 0` free
branch, then the gated path (identical to the main server's except that
its inner callback wraps with the string-passthrough `resultText`). -/
def authenticatedHandler (demoAtReg : Bool) (toolName : String)
    (tokenId : Option Nat) (handler : Args → JVal) (beh : CheckerBehavior)
    (jsonParse : String → Option JVal) (args : Args) : GateResult :=
  if demoAtReg then
    ⟨.ok (.envelope [⟨"text", resultText (handler args)⟩]), [args], [], none⟩
  else if tokenId = some 0 then
    ⟨.ok (.envelope [⟨"text", resultText (handler args)⟩]), [args], [], none⟩
  else
    let plog := proofParseLog jsonParse args
    let mcpRequest : McpRequest := ⟨"tools/call", some ⟨toolName, some args⟩⟩
    match beh with
    | .allow redelivered =>
        let pr := innerCallback002 handler redelivered
        ⟨handleResponse pr.1, pr.2, [(tokenId, mcpRequest)], plog⟩
    | .deny resp =>
        ⟨handleResponse resp, [], [(tokenId, mcpRequest)], plog⟩
    | .throwErr msg =>
        ⟨.error (.raw msg), [], [(tokenId, mcpRequest)], plog⟩

/-- Modelled from the spec: a zod object schema, reduced to its shape (a
map from field names to type descriptors).  Zod schemas are immutable;
`extend` produces a new schema. -/
structure Schema where
  shape : List (String × String)
deriving DecidableEq

/-- The descriptor of the field added for the proof:
`z.any().optional().describe(...)`, an optional field of unconstrained
type. -/
def evmauthFieldType : String := "z.any().optional()"

/-- Modelled from the spec: zod's `extend` merges the new field into the
shape, overwriting the key if already present, without mutating the
input schema. -/
def extendWith (s : Schema) (k v : String) : Schema :=
  ⟨eraseKey s.shape k ++ [(k, v)]⟩

/-- The schema augmentation of `protected-server.js` lines 173–184: for
`tokenId !== 0`, if the shape does not already declare `__evmauth`,
extend with an optional unconstrained `__evmauth` field; otherwise (and
for token id `0`) the schema is left unchanged. -/
def augmentParameters (tokenId : Option Nat) (s : Schema) : Schema :=
  if tokenId = some 0 then s
  else if (lookupKey s.shape evmauthKey).isSome then s
  else extendWith s evmauthKey evmauthFieldType

/-! ### Helper lemmas about key lookup and removal -/

/-- Stripping a key really removes it: lookup after `eraseKey` fails. -/
theorem lookupKey_eraseKey (l : List (String × α)) (k : String) :
    lookupKey (eraseKey l k) k = none := by
  induction l with
  | nil => rfl
  | cons p t ih =>
      by_cases h : p.1 = k
      · simpa [eraseKey, h] using ih
      · simpa [eraseKey, lookupKey, h] using ih

/-- Removing an absent key leaves the object unchanged. -/
theorem eraseKey_of_lookupKey_none (l : List (String × α)) (k : String)
    (h : lookupKey l k = none) : eraseKey l k = l := by
  induction l with
  | nil => rfl
  | cons p t ih =>
      by_cases hp : p.1 = k
      · simp [lookupKey, hp] at h
      · simp only [lookupKey, hp, if_false, if_neg hp] at h
        simp [eraseKey, hp, ih h]

/-- Lookup finds a field appended behind fields that do not carry the key. -/
theorem lookupKey_append_single (l : List (String × α)) (k : String) (v : α)
    (h : lookupKey l k = none) : lookupKey (l ++ [(k, v)]) k = some v := by
  induction l with
  | nil => simp [lookupKey]
  | cons p t ih =>
      by_cases hp : p.1 = k
      · simp [lookupKey, hp] at h
      · simp only [lookupKey, hp, if_neg hp] at h
        simpa [lookupKey, hp] using ih h

/-! ### Claim theorems -/

/-- An envelope text that parses to an object with a nested error,
as the Radius Checker embeds a denial in a successful-looking envelope. -/
def nestedErrorText : Text :=
  .json (.obj [("error", .obj [("message", .str "X")])])

/-- The envelope carrying `nestedErrorText` as its only content item. -/
def nestedErrorEnvelope : Resp := .envelope [⟨"text", nestedErrorText⟩]

/-- C1: the claim states that a gated call whose Checker response is an
Envelope whose first content text parses as JSON with an error field
throws a failure rather than returning the Envelope as a success.  The
code does the opposite: the deliberate `throw new Error(firstContent.text)`
sits inside the same try whose catch returns the response, so the
response handling returns the denial envelope as a success — both at the
level of the response-handling block and through the whole gated
`execute` wrapper at a concrete input. -/
theorem nested_error_envelope_returned_as_success :
    handleResponse nestedErrorEnvelope = .ok nestedErrorEnvelope
    ∧ (executeProt false "getForecast" (some 3) (fun _ => JVal.null)
        (.deny nestedErrorEnvelope) (fun _ => none)
        [(evmauthKey, JVal.str "proof")]).outcome = .ok nestedErrorEnvelope :=
  ⟨rfl, rfl⟩

/-- The denial envelope the Radius Checker returns when no proof is
attached: a content text whose JSON carries an error object. -/
def radiusDenialText : Text :=
  .json (.obj [("error",
    .obj [("code", .str "EVMAUTH_PROOF_MISSING"),
          ("message", .str "Authentication required"),
          ("requiredTokenIds", .arr [.num 1])])])

/-- The Checker denial response wrapping `radiusDenialText`. -/
def radiusDenialEnvelope : Resp := .envelope [⟨"text", radiusDenialText⟩]

/-- C2: the claim states that a gated call without a proof key, when the
Checker denies, surfaces a thrown EntitlementDenied failure and never
invokes the handler.  The handler is indeed never invoked, but when the
Checker delivers the denial the Radius way — as an envelope whose
content text is a JSON error — the gate returns that envelope as a
successful result instead of throwing: the conversion to a thrown
failure is swallowed by the response handling's own catch. -/
theorem missing_proof_denial_swallowed :
    executeProt false "getCurrentWeather" (some 1) (fun _ => JVal.str "weather")
        (.deny radiusDenialEnvelope) (fun _ => none) [("latitude", JVal.num 37)]
      = ⟨.ok radiusDenialEnvelope, [],
         [(some 1, ⟨"tools/call",
            some ⟨"getCurrentWeather", some [("latitude", JVal.num 37)]⟩⟩)],
         none⟩ :=
  rfl

/-- C3 counterexample: under demonstration mode in the `part_002`
variant, a tier-3 call whose arguments carry the reserved proof key
delivers that key to the handler, contradicting the claim that the
handler receives an argument bag from which `__evmauth` is absent. -/
theorem demo_mode_part002_passes_proof_to_handler :
    (authenticatedHandler true "getForecast" (some 3)
        (fun a => JVal.num (Int.ofNat a.length)) (.throwErr "unused")
        (fun _ => none) [(evmauthKey, JVal.str "proof")]).handlerCalls
      = [[(evmauthKey, JVal.str "proof")]]
    ∧ lookupKey [(evmauthKey, JVal.str "proof")] evmauthKey
      = some (JVal.str "proof") :=
  ⟨rfl, rfl⟩

/-- C3 (amended): under demonstration mode both servers produce an
Allowed envelope wrapping the handler's result without ever invoking the
Entitlement Checker; in `protected-server.js` the handler receives the
arguments with the proof key stripped, while in the `part_002` variant
the demo path passes the original arguments through unmodified, proof
key included. -/
theorem demo_mode_paths (toolName : String) (tokenId : Option Nat)
    (handler : Args → JVal) (beh : CheckerBehavior)
    (jsonParse : String → Option JVal) (args : Args) :
    executeProt true toolName tokenId handler beh jsonParse args
      = ⟨.ok (.envelope
            [⟨"text", resultText (handler (eraseKey args evmauthKey))⟩]),
         [eraseKey args evmauthKey], [], none⟩
    ∧ lookupKey (eraseKey args evmauthKey) evmauthKey = none
    ∧ authenticatedHandler true toolName tokenId handler beh jsonParse args
      = ⟨.ok (.envelope [⟨"text", resultText (handler args)⟩]),
         [args], [], none⟩ :=
  ⟨rfl, lookupKey_eraseKey args evmauthKey, rfl⟩

/-- C4 counterexample: a tier-0 (free) call whose arguments carry the
reserved proof key delivers that key to the handler — the free path
passes the original arguments unmodified, contradicting the claim that
on every path the handler never observes `__evmauth`. -/
theorem free_path_passes_proof_to_handler :
    (executeFree (fun a => JVal.num (Int.ofNat a.length))
        [(evmauthKey, JVal.str "proof2")]).handlerCalls
      = [[(evmauthKey, JVal.str "proof2")]]
    ∧ lookupKey [(evmauthKey, JVal.str "proof2")] evmauthKey
      = some (JVal.str "proof2") :=
  ⟨rfl, rfl⟩

/-- C4 (amended): every handler invocation made through the main
server's protected wrapper (demo or gated, any Checker behavior) and
through the `part_002` gated inner callback receives arguments without
the reserved key; the free path of the main server and the demo path of
`part_002`, by contrast, deliver the original argument bag unmodified,
so a proof attached there is observed by the handler. -/
theorem clean_args_on_protected_paths (demoMode : Bool) (toolName : String)
    (tokenId : Option Nat) (handler : Args → JVal) (beh : CheckerBehavior)
    (jsonParse : String → Option JVal) (args : Args) (request : McpRequest) :
    ((executeProt demoMode toolName tokenId handler beh jsonParse
        args).handlerCalls.all
          fun a => (lookupKey a evmauthKey).isNone) = true
    ∧ (((innerCallback002 handler request).2).all
          fun a => (lookupKey a evmauthKey).isNone) = true
    ∧ (executeFree handler args).handlerCalls = [args]
    ∧ (authenticatedHandler true toolName tokenId handler beh jsonParse
        args).handlerCalls = [args] := by
  refine ⟨?_, ?_, rfl, rfl⟩
  · cases demoMode <;> cases beh <;>
      simp [executeProt, innerCallbackMain, lookupKey_eraseKey]
  · simp [innerCallback002, lookupKey_eraseKey]

/-- C5: for every operation registered with tier 0, a call with any
arguments invokes the handler exactly once, directly with the original
arguments, never routes through the Entitlement Checker, and returns an
Envelope whose single content item's text is exactly the handler's
result — passed through if a string, otherwise JSON-stringified. -/
theorem free_tier_direct_invocation (reqs : List (String × Nat))
    (demoAtReg : Bool) (toolName : String) (handler : Args → JVal)
    (beh : CheckerBehavior) (jsonParse : String → Option JVal) (args : Args)
    (h : lookupKey reqs toolName = some 0) :
    runMain reqs demoAtReg toolName handler beh jsonParse args
      = ⟨.ok (.envelope [⟨"text", resultText (handler args)⟩]),
         [args], [], none⟩ := by
  unfold runMain
  rw [h]
  rfl

/-- Witness for C5: the tier-0 operation `ping` with empty arguments. -/
theorem free_tier_direct_invocation_witness :
    lookupKey TOKEN_REQUIREMENTS "ping" = some 0
    ∧ runMain TOKEN_REQUIREMENTS false "ping" (fun _ => JVal.str "pong")
        (.throwErr "unused") (fun _ => none) []
      = ⟨.ok (.envelope [⟨"text", resultText (JVal.str "pong")⟩]),
         [[]], [], none⟩ :=
  ⟨rfl, free_tier_direct_invocation TOKEN_REQUIREMENTS false "ping"
    (fun _ => JVal.str "pong") (.throwErr "unused") (fun _ => none) [] rfl⟩

/-- C6 counterexample: an operation name absent from
`TOKEN_REQUIREMENTS` is not treated as free by `protected-server.js`:
its lookup yields `undefined`, the `tokenId === 0` test fails, and the
operation is wired into the protected branch — a call to it is routed
through the Entitlement Checker (with an undefined token id), which the
claim says never happens. -/
theorem unregistered_tool_routed_to_checker :
    branchMain TOKEN_REQUIREMENTS "unregisteredTool" = .protected_ none
    ∧ (runMain TOKEN_REQUIREMENTS false "unregisteredTool"
        (fun _ => JVal.null) (.throwErr "denied") (fun _ => none)
        []).checkerCalls
      = [(none, ⟨"tools/call", some ⟨"unregisteredTool", some []⟩⟩)] :=
  ⟨rfl, rfl⟩

/-- C6 (amended): for an operation name absent from the registry, the
`part_000` variant defaults the token id to 0 with a logical-or and
treats the operation as free, while `protected-server.js` has no
default: the lookup yields `undefined`, which fails the strict equality
test against 0, so the operation is wired through the protected branch
with an undefined token id rather than the free branch. -/
theorem unregistered_tool_tier (toolName : String)
    (h : lookupKey TOKEN_REQUIREMENTS toolName = none) :
    tokenIdPart000 TOKEN_REQUIREMENTS toolName = 0
    ∧ branchPart000 TOKEN_REQUIREMENTS toolName = .free
    ∧ branchMain TOKEN_REQUIREMENTS toolName = .protected_ none := by
  refine ⟨?_, ?_, ?_⟩
  · simp [tokenIdPart000, h]
  · simp [branchPart000, tokenIdPart000, h]
  · unfold branchMain
    rw [h]

/-- Witness for C6 (amended) at a concrete unregistered name. -/
theorem unregistered_tool_tier_witness :
    lookupKey TOKEN_REQUIREMENTS "notATool" = none
    ∧ (tokenIdPart000 TOKEN_REQUIREMENTS "notATool" = 0
       ∧ branchPart000 TOKEN_REQUIREMENTS "notATool" = .free
       ∧ branchMain TOKEN_REQUIREMENTS "notATool" = .protected_ none) :=
  ⟨rfl, unregistered_tool_tier "notATool" rfl⟩

/-- An environment with `DEMO_MODE` unset. -/
def envOff : String → Option String := fun _ => none

/-- An environment with `DEMO_MODE` set to the string true. -/
def envDemoOn : String → Option String :=
  fun k => if k = "DEMO_MODE" then some "true" else none

/-- C7 counterexample: the demonstration-mode flag is captured when the
gate closure is constructed, not read per call.  Two calls whose
call-time environments disagree about `DEMO_MODE` (one off, one on)
produce identical results and both take the gated path — the bypass the
claim predicts for the call made under a demo-true environment does not
happen; only the registration-time environment selects the demo path. -/
theorem call_time_flag_ignored :
    runMainAtCall envOff envDemoOn TOKEN_REQUIREMENTS "getCurrentWeather"
        (fun _ => JVal.str "ok") (.throwErr "Access denied") (fun _ => none) []
      = runMainAtCall envOff envOff TOKEN_REQUIREMENTS "getCurrentWeather"
        (fun _ => JVal.str "ok") (.throwErr "Access denied") (fun _ => none) []
    ∧ (runMainAtCall envOff envDemoOn TOKEN_REQUIREMENTS "getCurrentWeather"
        (fun _ => JVal.str "ok") (.throwErr "Access denied") (fun _ => none)
        []).outcome = .error (.raw "Access denied")
    ∧ (runMainAtCall envDemoOn envOff TOKEN_REQUIREMENTS "getCurrentWeather"
        (fun _ => JVal.str "ok") (.throwErr "Access denied") (fun _ => none)
        []).outcome = .ok (.envelope [⟨"text", Text.raw "ok"⟩]) :=
  ⟨rfl, rfl, rfl⟩

/-- C7 (amended): the demonstration-mode flag is read from the process
environment once, when the gate closure is constructed at
registration/startup, and captured; every call is governed by the
captured value, so the result of a call is exactly that of the gate run
with the registration-time flag, and is independent of the environment
at call time. -/
theorem demo_flag_captured_at_registration
    (envAtRegistration envAtCall envAtCall' : String → Option String)
    (reqs : List (String × Nat)) (toolName : String) (handler : Args → JVal)
    (beh : CheckerBehavior) (jsonParse : String → Option JVal) (args : Args) :
    runMainAtCall envAtRegistration envAtCall reqs toolName handler beh
        jsonParse args
      = runMain reqs (readDemoFlag envAtRegistration) toolName handler beh
          jsonParse args
    ∧ runMainAtCall envAtRegistration envAtCall reqs toolName handler beh
        jsonParse args
      = runMainAtCall envAtRegistration envAtCall' reqs toolName handler beh
          jsonParse args :=
  ⟨rfl, rfl⟩

/-- C8: schema augmentation returns a tier-0 schema unchanged; for a
positive tier it returns the input schema unchanged when the proof field
is already declared, and otherwise a new schema equal to the input plus
an optional unconstrained `__evmauth` field; and it is idempotent —
augmenting an already-augmented schema yields the same schema.  (The
embedding is purely functional, so the input schema value is never
mutated.) -/
theorem augment_parameters_spec (s : Schema) (t : Nat) (ht : 0 < t) :
    augmentParameters (some 0) s = s
    ∧ ((lookupKey s.shape evmauthKey).isSome →
        augmentParameters (some t) s = s)
    ∧ (lookupKey s.shape evmauthKey = none →
        augmentParameters (some t) s
          = ⟨s.shape ++ [(evmauthKey, evmauthFieldType)]⟩)
    ∧ augmentParameters (some t) (augmentParameters (some t) s)
      = augmentParameters (some t) s := by
  have hne : (some t : Option Nat) ≠ some 0 := by simp [ht.ne']
  refine ⟨by simp [augmentParameters], ?_, ?_, ?_⟩
  · intro hsome
    simp [augmentParameters, hne, hsome]
  · intro hnone
    simp [augmentParameters, hne, hnone, extendWith,
          eraseKey_of_lookupKey_none _ _ hnone]
  · by_cases hkey : (lookupKey s.shape evmauthKey).isSome
    · simp [augmentParameters, hne, hkey]
    · have hnone : lookupKey s.shape evmauthKey = none :=
        Option.not_isSome_iff_eq_none.mp hkey
      have h2 : lookupKey (extendWith s evmauthKey evmauthFieldType).shape
          evmauthKey = some evmauthFieldType :=
        lookupKey_append_single _ _ _ (lookupKey_eraseKey _ _)
      simp [augmentParameters, hne, hnone, h2]

/-- A concrete declared parameter schema used by the C8 witness. -/
def demoSchema : Schema := ⟨[("latitude", "z.number()")]⟩

/-- Witness for C8 at a concrete schema and tier 1. -/
theorem augment_parameters_spec_witness :
    0 < 1
    ∧ (augmentParameters (some 0) demoSchema = demoSchema
       ∧ ((lookupKey demoSchema.shape evmauthKey).isSome →
           augmentParameters (some 1) demoSchema = demoSchema)
       ∧ (lookupKey demoSchema.shape evmauthKey = none →
           augmentParameters (some 1) demoSchema
             = ⟨demoSchema.shape ++ [(evmauthKey, evmauthFieldType)]⟩)
       ∧ augmentParameters (some 1) (augmentParameters (some 1) demoSchema)
         = augmentParameters (some 1) demoSchema) :=
  ⟨by decide, augment_parameters_spec demoSchema 1 (by decide)⟩

/-- C9: on every gated call (positive tier, demo off), the call
description delivered to the Entitlement Checker is exactly the
tools/call request carrying the operation name and the original,
unmodified argument bag (proof key still attached), for every Checker
behavior; and the outcome and the handler invocations are independent of
the proof-parse function — in particular a proof string that fails to
parse neither aborts the call nor alters what the Checker receives. -/
theorem checker_receives_original_arguments (toolName : String)
    (tokenId : Option Nat) (handler : Args → JVal) (beh : CheckerBehavior)
    (jsonParse jsonParse' : String → Option JVal) (args : Args) :
    (executeProt false toolName tokenId handler beh jsonParse
        args).checkerCalls
      = [(tokenId, ⟨"tools/call", some ⟨toolName, some args⟩⟩)]
    ∧ (executeProt false toolName tokenId handler beh jsonParse args).outcome
      = (executeProt false toolName tokenId handler beh jsonParse'
          args).outcome
    ∧ (executeProt false toolName tokenId handler beh jsonParse
        args).handlerCalls
      = (executeProt false toolName tokenId handler beh jsonParse'
          args).handlerCalls := by
  cases beh <;> exact ⟨rfl, rfl, rfl⟩

/-- C10: the gated path's inner callback, given a re-delivered request
whose params or params.arguments is missing, does not fail: it defaults
the argument bag to the empty object, strips the proof key, and invokes
the handler with the (empty) clean bag — in both server variants. -/
theorem inner_callback_defaults_missing_arguments (handler : Args → JVal)
    (request : McpRequest)
    (h : request.params = none
         ∨ ∃ p, request.params = some p ∧ p.arguments = none) :
    innerCallbackMain handler request
      = (.envelope [⟨"text", .json (handler [])⟩], [[]])
    ∧ innerCallback002 handler request
      = (.envelope [⟨"text", resultText (handler [])⟩], [[]]) := by
  rcases h with h | ⟨p, hp, hargs⟩
  · simp [innerCallbackMain, innerCallback002, h, eraseKey]
  · simp [innerCallbackMain, innerCallback002, hp, hargs, eraseKey]

/-- Witness for C10: a re-delivered request with no params object. -/
theorem inner_callback_defaults_missing_arguments_witness :
    ((⟨"tools/call", none⟩ : McpRequest).params = none
      ∨ ∃ p, (⟨"tools/call", none⟩ : McpRequest).params = some p
          ∧ p.arguments = none)
    ∧ (innerCallbackMain (fun _ => JVal.str "r") ⟨"tools/call", none⟩
        = (.envelope [⟨"text", .json (JVal.str "r")⟩], [[]])
      ∧ innerCallback002 (fun _ => JVal.str "r") ⟨"tools/call", none⟩
        = (.envelope [⟨"text", resultText (JVal.str "r")⟩], [[]])) :=
  ⟨Or.inl rfl,
   inner_callback_defaults_missing_arguments (fun _ => JVal.str "r")
     ⟨"tools/call", none⟩ (Or.inl rfl)⟩

end NubilaGate
